import Mathlib

/-!
Verification of the shopify-mcp-server repository: a shallow embedding of
the two protocol surfaces (src/shopify_mcp.py, the HTTP handler, and
src/shopify_mcp_fastmcp.py, the tool surface) together with the record
transformers they share.  The remote Shopify client is modelled as an
opaque record of functions that either return typed records or fail with
an exception message (Python `Exception`), exactly as the handlers observe
it through `shopify.Product.find` and friends.
-/

/-! ## JSON values

Python dictionaries built by the handlers are modelled as ordered
association lists of JSON-compatible values, in insertion order. -/

inductive JValue where
  | jNull : JValue
  | jBool : Bool → JValue
  | jInt : Int → JValue
  | jStr : String → JValue
  | jArr : List JValue → JValue
  | jObj : List (String × JValue) → JValue

/-- An ordered Python dict with string keys. -/
abbrev Jdict := List (String × JValue)

/-- `dict.get` on an ordered dict (keys are unique in every dict the
program builds, so first-match lookup is exact). -/
def lookupField : Jdict → String → Option JValue
  | [], _ => none
  | (k, v) :: rest, key => if key = k then some v else lookupField rest key

/-- Python `str(value)` as it appears in the f-string
`f'Unknown method: \x7bmethod\x7d'`.  Atoms are rendered exactly; the
program is only ever analysed at string-valued method names, so the
rendering of composite values is abbreviated. -/
def jRepr : JValue → String
  | .jNull => "None"
  | .jBool true => "True"
  | .jBool false => "False"
  | .jInt n => toString n
  | .jStr s => s
  | .jArr _ => "[...]"
  | .jObj _ => "{...}"

/-! ## Python string primitives

Implemented structurally on `List Char` so every definition reduces in the
kernel.  `pyLower` models `str.lower` on the ASCII range, which is the
range the matching logic is exercised on. -/

/-- ASCII `str.lower` on one character. -/
def charLower (c : Char) : Char :=
  if 'A' ≤ c ∧ c ≤ 'Z' then Char.ofNat (c.toNat + 32) else c

/-- Python `s.lower()` (ASCII model). -/
def pyLower (s : String) : String := ⟨s.data.map charLower⟩

/-- Does `pat` start the character list `s`? -/
def startsList : List Char → List Char → Bool
  | [], _ => true
  | _ :: _, [] => false
  | a :: as, b :: bs => a == b && startsList as bs

/-- Is `needle` a contiguous substring of the character list? -/
def substrList (needle : List Char) : List Char → Bool
  | [] => needle.isEmpty
  | c :: rest => startsList needle (c :: rest) || substrList needle rest

/-- Python `needle in hay` on strings: contiguous substring containment. -/
def strIn (needle hay : String) : Bool := substrList needle.data hay.data

/-- Python `s.startswith(pre)`. -/
def pyStartsWith (s pre : String) : Bool := startsList pre.data s.data

/-- Replacement worker: `skip` counts characters still to be skipped after
a pattern match was emitted (the pattern head was consumed by the match
that detected it). -/
def replAux (pat rep : List Char) : Nat → List Char → List Char
  | _, [] => []
  | k + 1, _ :: rest => replAux pat rep k rest
  | 0, c :: rest =>
    if !pat.isEmpty && startsList pat (c :: rest) then
      rep ++ replAux pat rep (pat.length - 1) rest
    else
      c :: replAux pat rep 0 rest

/-- Python `s.replace(pat, rep)`: replace every non-overlapping occurrence
left to right.  The source only calls this with the non-empty pattern
"/api/", so the empty-pattern behaviour of Python (interleaving) is not
modelled. -/
def pyReplace (s pat rep : String) : String :=
  if pat = "" then s else ⟨replAux pat.data rep.data 0 s.data⟩

/-- Character-list trim used by `pyInt?` (Python `int` ignores surrounding
whitespace). -/
def trimChars (l : List Char) : List Char :=
  ((l.dropWhile Char.isWhitespace).reverse.dropWhile Char.isWhitespace).reverse

/-- Digit-run accumulator for `pyInt?`. -/
def digitsAux : List Char → Nat → Option Nat
  | [], acc => some acc
  | c :: rest, acc =>
    if '0' ≤ c ∧ c ≤ '9' then digitsAux rest (acc * 10 + (c.toNat - 48))
    else none

/-- A non-empty all-digit run, as a number. -/
def digitsToNat? : List Char → Option Nat
  | [] => none
  | cs => digitsAux cs 0

/-- Python `int(s)` on a string: optional surrounding whitespace, optional
sign, then a non-empty digit run; `none` models the `ValueError` raised on
any other input.  (Underscore digit grouping is not modelled.) -/
def pyInt? (s : String) : Option Int :=
  match trimChars s.data with
  | '-' :: rest => (digitsToNat? rest).map (fun n => -(n : Int))
  | '+' :: rest => (digitsToNat? rest).map (fun n => (n : Int))
  | cs => (digitsToNat? cs).map (fun n => (n : Int))

/-! ## The remote data model

Typed snapshots of the duck-typed records returned by the Shopify client,
with exactly the attributes the handlers read.  Timestamps are modelled as
the strings `str(...)` renders them to.  An `Option` field models a
`hasattr`/truthiness probe in the source. -/

namespace Shopify

structure Variant where
  id : Int
  title : String
  price : String
  sku : String
  inventory_quantity : Int

structure Image where
  id : Int
  src : String
  position : Int

structure Product where
  id : Int
  title : String
  body_html : String
  product_type : String
  vendor : String
  tags : String
  created_at : String
  updated_at : String
  variants : List Variant
  images : List Image

structure Address where
  address1 : String
  city : String
  province : String
  country : String
  zip : String

structure Customer where
  id : Int
  email : String
  first_name : String
  last_name : String
  orders_count : Int
  total_spent : String
  created_at : String
  addresses : Option (List Address)

structure OrderCustomer where
  id : Int
  email : String
  first_name : String
  last_name : String

structure ShippingAddress where
  name : String
  address1 : String
  city : String
  province : String
  country : String
  zip : String

structure LineItem where
  id : Int
  title : String
  quantity : Int
  price : String
  sku : String
  product_id : Int
  variant_id : Int

structure Order where
  id : Int
  order_number : Int
  email : String
  created_at : String
  total_price : String
  subtotal_price : String
  total_tax : String
  currency : String
  financial_status : String
  fulfillment_status : String
  customer : Option OrderCustomer
  shipping_address : Option ShippingAddress
  line_items : List LineItem

structure Shop where
  id : Int
  name : String
  email : String
  domain : String
  province : String
  country : String
  address1 : String
  zip : String
  city : String
  phone : String
  created_at : String
  shop_owner : String
  plan_name : String
  has_storefront : Bool
  money_format : String
  weight_unit : String
  primary_locale : String
  country_name : String
  currency : String
  timezone : String

end Shopify

/-- The Remote Data Client (the authenticated `shopify` module): each
operation either returns records or raises, which the handlers observe as
an exception whose message is the `String`.  The `find(limit=...)`
operations receive whatever value the caller passed for `limit`
(the POST surface forwards raw JSON values). -/
structure ShopifyClient where
  findProducts : JValue → Except String (List Shopify.Product)
  findProductById : String → Except String Shopify.Product
  findCustomers : JValue → Except String (List Shopify.Customer)
  findCustomerById : String → Except String Shopify.Customer
  findOrders : JValue → Except String (List Shopify.Order)
  shopCurrent : Unit → Except String Shopify.Shop

open Shopify

/-! ## Record transformers

One definition per dict literal in the source.  Both source files build
these dicts with identical code, so they are shared. -/

/-- Variant dict of the list/detail endpoints. -/
def variantDict (v : Variant) : Jdict :=
  [("id", .jInt v.id), ("title", .jStr v.title), ("price", .jStr v.price),
   ("sku", .jStr v.sku), ("inventory_quantity", .jInt v.inventory_quantity)]

/-- Image dict of the list/detail endpoints. -/
def imageDict (i : Image) : Jdict :=
  [("id", .jInt i.id), ("src", .jStr i.src), ("position", .jInt i.position)]

/-- Product dict of `get_product_list` / `get_products` /
`get_product_details`: base literal plus the two append loops. -/
def productDict (p : Product) : Jdict :=
  [("id", .jInt p.id), ("title", .jStr p.title),
   ("description", .jStr p.body_html),
   ("product_type", .jStr p.product_type), ("vendor", .jStr p.vendor),
   ("tags", .jStr p.tags),
   ("created_at", .jStr p.created_at), ("updated_at", .jStr p.updated_at),
   ("variants", .jArr (p.variants.map (fun v => .jObj (variantDict v)))),
   ("images", .jArr (p.images.map (fun i => .jObj (imageDict i))))]

/-- Variant dict of `search_products` (note: no inventory_quantity). -/
def searchVariantDict (v : Variant) : Jdict :=
  [("id", .jInt v.id), ("title", .jStr v.title), ("price", .jStr v.price),
   ("sku", .jStr v.sku)]

/-- Product dict of `search_products`: the plural images key is created
empty and never filled; a singular image key holding only the first
image's source URL is appended when the product has images. -/
def searchDict (p : Product) : Jdict :=
  [("id", .jInt p.id), ("title", .jStr p.title),
   ("description", .jStr p.body_html),
   ("product_type", .jStr p.product_type), ("vendor", .jStr p.vendor),
   ("tags", .jStr p.tags),
   ("variants", .jArr (p.variants.map (fun v => .jObj (searchVariantDict v)))),
   ("images", .jArr [])]
  ++ match p.images with
     | [] => []
     | img :: _ => [("image", .jObj [("src", .jStr img.src)])]

/-- Address dict of the customer endpoints. -/
def addressDict (a : Address) : Jdict :=
  [("address1", .jStr a.address1), ("city", .jStr a.city),
   ("province", .jStr a.province), ("country", .jStr a.country),
   ("zip", .jStr a.zip)]

/-- Customer dict of `get_customer_list` / `get_customers` /
`get_customer_details`; `addresses` stays `[]` when the remote record has
no such attribute. -/
def customerDict (c : Customer) : Jdict :=
  [("id", .jInt c.id), ("email", .jStr c.email),
   ("first_name", .jStr c.first_name), ("last_name", .jStr c.last_name),
   ("orders_count", .jInt c.orders_count),
   ("total_spent", .jStr c.total_spent),
   ("created_at", .jStr c.created_at),
   ("addresses", .jArr (match c.addresses with
     | none => []
     | some l => l.map (fun a => .jObj (addressDict a))))]

/-- Order-embedded customer snapshot dict. -/
def orderCustomerDict (c : OrderCustomer) : Jdict :=
  [("id", .jInt c.id), ("email", .jStr c.email),
   ("first_name", .jStr c.first_name), ("last_name", .jStr c.last_name)]

/-- Shipping address dict of the order endpoints. -/
def shippingAddressDict (a : ShippingAddress) : Jdict :=
  [("name", .jStr a.name), ("address1", .jStr a.address1),
   ("city", .jStr a.city), ("province", .jStr a.province),
   ("country", .jStr a.country), ("zip", .jStr a.zip)]

/-- Line item dict of the order endpoints. -/
def lineItemDict (it : LineItem) : Jdict :=
  [("id", .jInt it.id), ("title", .jStr it.title),
   ("quantity", .jInt it.quantity), ("price", .jStr it.price),
   ("sku", .jStr it.sku), ("product_id", .jInt it.product_id),
   ("variant_id", .jInt it.variant_id)]

/-- Order dict of `get_order_list` / `get_orders`: customer and shipping
address are initialised to empty dicts and replaced only when the remote
record carries them. -/
def orderDict (o : Order) : Jdict :=
  [("id", .jInt o.id), ("order_number", .jInt o.order_number),
   ("email", .jStr o.email), ("created_at", .jStr o.created_at),
   ("total_price", .jStr o.total_price),
   ("subtotal_price", .jStr o.subtotal_price),
   ("total_tax", .jStr o.total_tax), ("currency", .jStr o.currency),
   ("financial_status", .jStr o.financial_status),
   ("fulfillment_status", .jStr o.fulfillment_status),
   ("customer", match o.customer with
     | none => .jObj []
     | some c => .jObj (orderCustomerDict c)),
   ("shipping_address", match o.shipping_address with
     | none => .jObj []
     | some a => .jObj (shippingAddressDict a)),
   ("line_items", .jArr (o.line_items.map (fun it => .jObj (lineItemDict it))))]

/-- Shop dict of `get_store_info` (both files). -/
def shopDict (s : Shop) : Jdict :=
  [("id", .jInt s.id), ("name", .jStr s.name), ("email", .jStr s.email),
   ("domain", .jStr s.domain), ("province", .jStr s.province),
   ("country", .jStr s.country), ("address1", .jStr s.address1),
   ("zip", .jStr s.zip), ("city", .jStr s.city), ("phone", .jStr s.phone),
   ("created_at", .jStr s.created_at),
   ("shop_owner", .jStr s.shop_owner), ("plan_name", .jStr s.plan_name),
   ("has_storefront", .jBool s.has_storefront),
   ("money_format", .jStr s.money_format),
   ("weight_unit", .jStr s.weight_unit),
   ("primary_locale", .jStr s.primary_locale),
   ("country_name", .jStr s.country_name),
   ("currency", .jStr s.currency), ("timezone", .jStr s.timezone)]

/-! ## Search matching (shared by both files) -/

/-- The match test of `search_products`: the already-lowercased query is a
substring of the lowercased title, vendor, product_type or tags. -/
def matchesQuery (ql : String) (p : Product) : Bool :=
  strIn ql (pyLower p.title) || strIn ql (pyLower p.vendor) ||
  strIn ql (pyLower p.product_type) || strIn ql (pyLower p.tags)

/-- The accumulation loop of the HTTP-file `search_products`: append the
search dict of every matching product, never stopping early. -/
def searchLoop (ql : String) : List Product → List Jdict
  | [] => []
  | p :: rest =>
    if matchesQuery ql p then searchDict p :: searchLoop ql rest
    else searchLoop ql rest

/-- The accumulation loop of the FastMCP-file `search_products`: after a
match is appended, `len(matched_products) >= limit` breaks the loop.
`count` is the number of matches already collected. -/
def fastSearchLoop (ql : String) (limit : Int) (count : Nat) :
    List Product → List Jdict
  | [] => []
  | p :: rest =>
    if matchesQuery ql p then
      if limit ≤ ((count + 1 : Nat) : Int) then [searchDict p]
      else searchDict p :: fastSearchLoop ql limit (count + 1) rest
    else fastSearchLoop ql limit count rest

/-! ## src/shopify_mcp.py: data retrieval functions and HTTP handler -/

namespace Mcp

/-- `get_product_list` of src/shopify_mcp.py: fetch with the caller's
limit, transform element-wise; any exception degrades to `[]`. -/
def get_product_list (c : ShopifyClient) (limit : JValue) : List Jdict :=
  match c.findProducts limit with
  | .error _ => []
  | .ok products => products.map productDict

/-- `get_customer_list` of src/shopify_mcp.py. -/
def get_customer_list (c : ShopifyClient) (limit : JValue) : List Jdict :=
  match c.findCustomers limit with
  | .error _ => []
  | .ok customers => customers.map customerDict

/-- `get_order_list` of src/shopify_mcp.py. -/
def get_order_list (c : ShopifyClient) (limit : JValue) : List Jdict :=
  match c.findOrders limit with
  | .error _ => []
  | .ok orders => orders.map orderDict

/-- `search_products` of src/shopify_mcp.py: fetch a fixed 50-record page,
lowercase the query, filter client-side with no early stop.  A non-string
query raises inside the try (on `.lower()`) and degrades to `[]`, as does
a client failure. -/
def search_products (c : ShopifyClient) (query : JValue) : List Jdict :=
  match c.findProducts (.jInt 50) with
  | .error _ => []
  | .ok products =>
    match query with
    | .jStr q => searchLoop (pyLower q) products
    | _ => []

/-- `get_store_info` of src/shopify_mcp.py; `[]` is the empty dict. -/
def get_store_info (c : ShopifyClient) : Jdict :=
  match c.shopCurrent () with
  | .error _ => []
  | .ok s => shopDict s

/-- The HTTP response the handler writes: status code and JSON body. -/
structure HttpResponse where
  status : Nat
  body : JValue

/-- The POST body after the transport read: either JSON that failed to
decode, or a decoded JSON value. -/
inductive PostBody where
  | malformed : PostBody
  | parsed : JValue → PostBody

/-- The endpoint names the GET router knows. -/
def getEndpoints : List String :=
  ["products", "customers", "orders", "search", "store"]

/-- The method names the POST router knows. -/
def postMethods : List String :=
  ["get_product_list", "get_customer_list", "get_order_list",
   "search_products", "get_store_info"]

/-- `MCPRequestHandler.do_GET`: health check, then `/api/` routing with
the endpoint obtained by deleting "/api/" from the path.  `int()` on a bad
limit raises `ValueError` out of the handler, modelled by the `.error`
result: no response is written for that request. -/
def do_GET (c : ShopifyClient) (path : String)
    (query_params : List (String × String)) : Except String HttpResponse :=
  if path = "/health" then
    .ok ⟨200, .jObj [("status", .jStr "ok")]⟩
  else if pyStartsWith path "/api/" then
    let endpoint := pyReplace path "/api/" ""
    if endpoint = "products" then
      match pyInt? ((List.lookup "limit" query_params).getD "10") with
      | none => .error "ValueError"
      | some limit =>
        .ok ⟨200, .jArr ((get_product_list c (.jInt limit)).map JValue.jObj)⟩
    else if endpoint = "customers" then
      match pyInt? ((List.lookup "limit" query_params).getD "10") with
      | none => .error "ValueError"
      | some limit =>
        .ok ⟨200, .jArr ((get_customer_list c (.jInt limit)).map JValue.jObj)⟩
    else if endpoint = "orders" then
      match pyInt? ((List.lookup "limit" query_params).getD "10") with
      | none => .error "ValueError"
      | some limit =>
        .ok ⟨200, .jArr ((get_order_list c (.jInt limit)).map JValue.jObj)⟩
    else if endpoint = "search" then
      let q := (List.lookup "q" query_params).getD ""
      .ok ⟨200, .jArr ((search_products c (.jStr q)).map JValue.jObj)⟩
    else if endpoint = "store" then
      .ok ⟨200, .jObj (get_store_info c)⟩
    else
      .ok ⟨404, .jObj [("error", .jStr "Endpoint not found")]⟩
  else
    .ok ⟨404, .jObj [("error", .jStr "Not found")]⟩

/-- `params.get(key, default)` as the POST dispatch performs it: raises
`AttributeError` (caught by the outer handler, giving a 500) when the
params value is not a dict. -/
def pyGet (params : JValue) (key : String) (dflt : JValue) :
    Except String JValue :=
  match params with
  | .jObj fields => .ok ((lookupField fields key).getD dflt)
  | _ => .error "AttributeError"

/-- `MCPRequestHandler.do_POST`: the /mcp envelope check, method string
comparison chain, per-method parameter defaults, and the catch-all that
turns an uncaught exception into a 500 response. -/
def do_POST (c : ShopifyClient) (path : String) (body : PostBody) :
    HttpResponse :=
  if path = "/mcp" then
    match body with
    | .malformed => ⟨400, .jObj [("error", .jStr "Invalid JSON in request")]⟩
    | .parsed (.jObj fields) =>
      match lookupField fields "method" with
      | none => ⟨400, .jObj [("error", .jStr "Invalid MCP request format")]⟩
      | some methodVal =>
        let params := (lookupField fields "params").getD (.jObj [])
        match methodVal with
        | .jStr mname =>
          if mname = "get_product_list" then
            match pyGet params "limit" (.jInt 10) with
            | .error e => ⟨500, .jObj [("error", .jStr ("Server error: " ++ e))]⟩
            | .ok limit =>
              ⟨200, .jObj [("result",
                .jArr ((get_product_list c limit).map JValue.jObj))]⟩
          else if mname = "get_customer_list" then
            match pyGet params "limit" (.jInt 10) with
            | .error e => ⟨500, .jObj [("error", .jStr ("Server error: " ++ e))]⟩
            | .ok limit =>
              ⟨200, .jObj [("result",
                .jArr ((get_customer_list c limit).map JValue.jObj))]⟩
          else if mname = "get_order_list" then
            match pyGet params "limit" (.jInt 10) with
            | .error e => ⟨500, .jObj [("error", .jStr ("Server error: " ++ e))]⟩
            | .ok limit =>
              ⟨200, .jObj [("result",
                .jArr ((get_order_list c limit).map JValue.jObj))]⟩
          else if mname = "search_products" then
            match pyGet params "query" (.jStr "") with
            | .error e => ⟨500, .jObj [("error", .jStr ("Server error: " ++ e))]⟩
            | .ok q =>
              ⟨200, .jObj [("result",
                .jArr ((search_products c q).map JValue.jObj))]⟩
          else if mname = "get_store_info" then
            ⟨200, .jObj [("result", .jObj (get_store_info c))]⟩
          else
            ⟨400, .jObj [("error", .jStr ("Unknown method: " ++ mname))]⟩
        | other =>
          ⟨400, .jObj [("error", .jStr ("Unknown method: " ++ jRepr other))]⟩
    | .parsed _ => ⟨400, .jObj [("error", .jStr "Invalid MCP request format")]⟩
  else
    ⟨404, .jObj [("error", .jStr "Not found")]⟩

end Mcp

/-! ## src/shopify_mcp_fastmcp.py: the tool surface -/

namespace FastMcp

/-- The seven tool names registered with `@mcp.tool()`. -/
def tools : List String :=
  ["get_products", "get_product_details", "get_customers",
   "get_customer_details", "get_orders", "search_products",
   "get_store_info"]

/-- `get_products`: same fetch and transform as the HTTP list endpoint,
with a typed integer limit. -/
def get_products (c : ShopifyClient) (limit : Int) : List Jdict :=
  match c.findProducts (.jInt limit) with
  | .error _ => []
  | .ok products => products.map productDict

/-- `get_product_details`: fetch one product by id; `[]` is the empty dict
returned on any exception (including not-found). -/
def get_product_details (c : ShopifyClient) (product_id : String) : Jdict :=
  match c.findProductById product_id with
  | .error _ => []
  | .ok p => productDict p

/-- `get_customers`. -/
def get_customers (c : ShopifyClient) (limit : Int) : List Jdict :=
  match c.findCustomers (.jInt limit) with
  | .error _ => []
  | .ok customers => customers.map customerDict

/-- `get_customer_details`. -/
def get_customer_details (c : ShopifyClient) (customer_id : String) : Jdict :=
  match c.findCustomerById customer_id with
  | .error _ => []
  | .ok cu => customerDict cu

/-- `get_orders`. -/
def get_orders (c : ShopifyClient) (limit : Int) : List Jdict :=
  match c.findOrders (.jInt limit) with
  | .error _ => []
  | .ok orders => orders.map orderDict

/-- `search_products` of the tool surface: same fixed 50-record fetch and
match test, but the loop breaks once `limit` matches are collected. -/
def search_products (c : ShopifyClient) (query : String) (limit : Int) :
    List Jdict :=
  match c.findProducts (.jInt 50) with
  | .error _ => []
  | .ok products => fastSearchLoop (pyLower query) limit 0 products

/-- `get_store_info` of the tool surface. -/
def get_store_info (c : ShopifyClient) : Jdict :=
  match c.shopCurrent () with
  | .error _ => []
  | .ok s => shopDict s

end FastMcp

/-! ## Field-name tables (the §3 data model as the list transforms emit it) -/

/-- The product fields of the data model, in output order. -/
def productFieldNames : List String :=
  ["id", "title", "description", "product_type", "vendor", "tags",
   "created_at", "updated_at", "variants", "images"]

/-- The customer fields of the data model, in output order. -/
def customerFieldNames : List String :=
  ["id", "email", "first_name", "last_name", "orders_count", "total_spent",
   "created_at", "addresses"]

/-- The order fields of the data model, in output order. -/
def orderFieldNames : List String :=
  ["id", "order_number", "email", "created_at", "total_price",
   "subtotal_price", "total_tax", "currency", "financial_status",
   "fulfillment_status", "customer", "shipping_address", "line_items"]

/-- The shop fields of the data model, in output order. -/
def shopFieldNames : List String :=
  ["id", "name", "email", "domain", "province", "country", "address1",
   "zip", "city", "phone", "created_at", "shop_owner", "plan_name",
   "has_storefront", "money_format", "weight_unit", "primary_locale",
   "country_name", "currency", "timezone"]

/-- The base keys of the search transform (before the conditional singular
image key). -/
def searchFieldNames : List String :=
  ["id", "title", "description", "product_type", "vendor", "tags",
   "variants", "images"]

/-! ## Concrete fixtures for witnesses and counterexamples -/

/-- A client that always succeeds on product pages with the given list and
fails on everything else. -/
def stubClient (ps : List Product) : ShopifyClient where
  findProducts := fun _ => .ok ps
  findProductById := fun _ => .error "Not Found"
  findCustomers := fun _ => .ok []
  findCustomerById := fun _ => .error "Not Found"
  findOrders := fun _ => .ok []
  shopCurrent := fun _ => .error "Not Found"

/-- Like `stubClient` but observably different on a non-product operation,
for client-independence witnesses. -/
def stubClient2 (ps : List Product) : ShopifyClient :=
  { stubClient ps with findCustomerById := fun _ => .error "different" }

/-- A client for which every remote operation raises. -/
def failClient : ShopifyClient where
  findProducts := fun _ => .error "upstream boom"
  findProductById := fun _ => .error "upstream boom"
  findCustomers := fun _ => .error "upstream boom"
  findCustomerById := fun _ => .error "upstream boom"
  findOrders := fun _ => .error "upstream boom"
  shopCurrent := fun _ => .error "upstream boom"

/-- The fixture product whose title matches the query "alpha". -/
def pAlpha : Product :=
  { id := 1, title := "Alpha Widget", body_html := "<p>first</p>",
    product_type := "Widget", vendor := "Acme", tags := "alpha, new",
    created_at := "2023-01-01 00:00:00", updated_at := "2023-01-02 00:00:00",
    variants := [], images := [] }

/-- A fixture product that matches no "alpha" query in any field. -/
def pBeta : Product :=
  { id := 2, title := "Beta Gadget", body_html := "<p>second</p>",
    product_type := "Gadget", vendor := "Globex", tags := "beta",
    created_at := "2023-02-01 00:00:00", updated_at := "2023-02-02 00:00:00",
    variants := [⟨21, "Default", "9.99", "B-1", 5⟩],
    images := [⟨201, "https://img.example/beta-1.png", 1⟩,
               ⟨202, "https://img.example/beta-2.png", 2⟩] }

/-- Third fixture product. -/
def pGamma : Product :=
  { id := 3, title := "Gamma Tool", body_html := "", product_type := "Tool",
    vendor := "Initech", tags := "gamma",
    created_at := "2023-03-01 00:00:00", updated_at := "2023-03-02 00:00:00",
    variants := [⟨31, "Small", "1.00", "G-S", 1⟩, ⟨32, "Large", "2.00", "G-L", 2⟩],
    images := [⟨301, "https://img.example/gamma.png", 1⟩] }

/-- Fourth fixture product. -/
def pDelta : Product :=
  { id := 4, title := "Delta Kit", body_html := "", product_type := "Kit",
    vendor := "Umbrella", tags := "delta",
    created_at := "2023-04-01 00:00:00", updated_at := "2023-04-02 00:00:00",
    variants := [], images := [] }

/-- Fifth fixture product. -/
def pEpsilon : Product :=
  { id := 5, title := "Epsilon Case", body_html := "", product_type := "Case",
    vendor := "Hooli", tags := "epsilon",
    created_at := "2023-05-01 00:00:00", updated_at := "2023-05-02 00:00:00",
    variants := [], images := [] }

/-- A five-product fixture in a fixed order. -/
def fixture5 : List Product := [pAlpha, pBeta, pGamma, pDelta, pEpsilon]

/-- A fixture variant, for field-presence counterexamples. -/
def vAlpha : Variant := ⟨11, "Default Title", "19.99", "A-1", 3⟩

/-- A fixture customer whose remote record has no addresses attribute. -/
def custNoAddr : Customer :=
  { id := 7, email := "a@example.com", first_name := "Ada",
    last_name := "Lovelace", orders_count := 2, total_spent := "100.00",
    created_at := "2023-01-05 00:00:00", addresses := none }

/-- A fixture order with no customer snapshot and no shipping address. -/
def orderBare : Order :=
  { id := 9, order_number := 1001, email := "o@example.com",
    created_at := "2023-06-01 00:00:00", total_price := "10.00",
    subtotal_price := "9.00", total_tax := "1.00", currency := "USD",
    financial_status := "paid", fulfillment_status := "unfulfilled",
    customer := none, shipping_address := none, line_items := [] }

/-- A client serving one product by id, for the tool-surface divergence
counterexample. -/
def cDemo : ShopifyClient :=
  { stubClient [pAlpha] with
    findProductById := fun pid =>
      if pid = "1" then .ok pAlpha else .error "Not Found" }

/-! ## Shared lemmas -/

theorem startsList_nil (l : List Char) : startsList [] l = true := by
  cases l <;> rfl

theorem substrList_nil (l : List Char) : substrList [] l = true := by
  induction l with
  | nil => rfl
  | cons c t ih => simp [substrList, startsList_nil, ih]

theorem strIn_empty (s : String) : strIn "" s = true := by
  simpa [strIn] using substrList_nil s.data

theorem matchesQuery_empty (p : Product) : matchesQuery (pyLower "") p = true := by
  have h : pyLower "" = "" := rfl
  rw [h]
  simp [matchesQuery, strIn_empty]

theorem searchLoop_eq_filter (ql : String) (ps : List Product) :
    searchLoop ql ps
      = (ps.filter (fun p => matchesQuery ql p)).map searchDict := by
  induction ps with
  | nil => rfl
  | cons p rest ih =>
    cases h : matchesQuery ql p <;>
      simp [searchLoop, h, List.filter_cons, ih]

theorem fastSearchLoop_take (ql : String) (limit : Int) (ps : List Product) :
    ∀ count : Nat,
      fastSearchLoop ql limit count ps
        = (searchLoop ql ps).take (max (limit - count) 1).toNat := by
  induction ps with
  | nil => intro count; simp [fastSearchLoop, searchLoop]
  | cons p rest ih =>
    intro count
    cases hm : matchesQuery ql p with
    | false => simp [fastSearchLoop, searchLoop, hm, ih count]
    | true =>
      by_cases hl : limit ≤ (count : Int) + 1
      · have h1 : (max (limit - (count : Int)) 1).toNat = 1 := by omega
        simp [fastSearchLoop, searchLoop, hm, hl, h1]
      · have h1 : (max (limit - (count : Int)) 1).toNat
            = (max (limit - ((count : Int) + 1)) 1).toNat + 1 := by omega
        have h2 := ih (count + 1)
        push_cast at h2
        simp [fastSearchLoop, searchLoop, hm, hl, h1, h2]

theorem fast_search_eq_take (c : ShopifyClient) (q : String) (limit : Int) :
    FastMcp.search_products c q limit
      = (Mcp.search_products c (.jStr q)).take (max limit 1).toNat := by
  unfold FastMcp.search_products Mcp.search_products
  cases h : c.findProducts (.jInt 50) with
  | error e => simp
  | ok ps => simpa using fastSearchLoop_take (pyLower q) limit ps 0

theorem do_GET_search_route (c : ShopifyClient) (qp : List (String × String)) :
    Mcp.do_GET c "/api/search" qp
      = .ok ⟨200, .jArr ((Mcp.search_products c
          (.jStr ((List.lookup "q" qp).getD ""))).map JValue.jObj)⟩ := rfl

/-! ## Claim theorems -/

/-- C1: both search implementations consult only the fixed 50-record page
of the Remote Data Client, regardless of the query (and, on the tool
surface, of the limit); and the HTTP `search_products` result consists of
exactly the transforms of the working-set products whose lowercased
title, vendor, product_type or tags contains the lowercased query, in
working-set order. -/
theorem search_products_working_set_and_match :
    (∀ (c : ShopifyClient) (q : String) (ws : List Product),
        c.findProducts (.jInt 50) = .ok ws →
        Mcp.search_products c (.jStr q)
          = (ws.filter (fun p => matchesQuery (pyLower q) p)).map searchDict)
  ∧ (∀ (c₁ c₂ : ShopifyClient) (q : JValue),
        c₁.findProducts (.jInt 50) = c₂.findProducts (.jInt 50) →
        Mcp.search_products c₁ q = Mcp.search_products c₂ q)
  ∧ (∀ (c₁ c₂ : ShopifyClient) (q : String) (limit : Int),
        c₁.findProducts (.jInt 50) = c₂.findProducts (.jInt 50) →
        FastMcp.search_products c₁ q limit
          = FastMcp.search_products c₂ q limit) := by
  refine ⟨?_, ?_, ?_⟩
  · intro c q ws h
    simp [Mcp.search_products, h, searchLoop_eq_filter]
  · intro c₁ c₂ q h
    simp [Mcp.search_products, h]
  · intro c₁ c₂ q limit h
    simp [FastMcp.search_products, h]

/-- C1 witness: a concrete two-product working set where the uppercase
query "Alpha" matches one product by title, and two clients that differ
outside the product page give identical search results. -/
theorem search_products_working_set_and_match_witness :
    Mcp.search_products (stubClient [pAlpha, pBeta]) (.jStr "Alpha")
      = [searchDict pAlpha]
  ∧ Mcp.search_products (stubClient [pAlpha, pBeta]) (.jStr "Alpha")
      = Mcp.search_products (stubClient2 [pAlpha, pBeta]) (.jStr "Alpha")
  ∧ FastMcp.search_products (stubClient [pAlpha, pBeta]) "Alpha" 10
      = FastMcp.search_products (stubClient2 [pAlpha, pBeta]) "Alpha" 10 := by
  obtain ⟨h1, h2, h3⟩ := search_products_working_set_and_match
  refine ⟨?_, h2 _ _ _ rfl, h3 _ _ _ _ rfl⟩
  rw [h1 (stubClient [pAlpha, pBeta]) "Alpha" [pAlpha, pBeta] rfl]
  rfl

/-- C5 counterexample: with limit 0 the tool-surface search still returns
one product (the length check runs only after a match is appended), so
the result is not "at most limit products" for every limit. -/
theorem fast_search_limit_zero_returns_one :
    (FastMcp.search_products (stubClient [pAlpha]) "alpha" 0).length = 1
  ∧ ¬ (((FastMcp.search_products (stubClient [pAlpha]) "alpha" 0).length : Int)
        ≤ 0) := by
  exact ⟨rfl, by decide⟩

/-- C5 (amended): the tool-surface search equals the first
max(limit, 1) entries of the query-string search result; for limit ≥ 1 it
therefore returns at most limit products, while the query-string path
never stops early and returns every match of the working set. -/
theorem search_early_stop_amended :
    (∀ (c : ShopifyClient) (q : String) (limit : Int),
        FastMcp.search_products c q limit
          = (Mcp.search_products c (.jStr q)).take (max limit 1).toNat)
  ∧ (∀ (c : ShopifyClient) (q : String) (limit : Int), 1 ≤ limit →
        ((FastMcp.search_products c q limit).length : Int) ≤ limit)
  ∧ (∀ (c : ShopifyClient) (q : String) (ws : List Product),
        c.findProducts (.jInt 50) = .ok ws →
        Mcp.search_products c (.jStr q)
          = (ws.filter (fun p => matchesQuery (pyLower q) p)).map searchDict) := by
  refine ⟨fast_search_eq_take, ?_, ?_⟩
  · intro c q limit hl
    rw [fast_search_eq_take]
    have hle := List.length_take_le (max limit 1).toNat
      (Mcp.search_products c (.jStr q))
    omega
  · intro c q ws h
    simp [Mcp.search_products, h, searchLoop_eq_filter]

/-- C5 witness: an 11-match working set truncated to 10 by the tool
surface, and a full filter result on the query-string path. -/
theorem search_early_stop_amended_witness :
    FastMcp.search_products (stubClient (List.replicate 11 pAlpha)) "alpha" 10
      = (Mcp.search_products (stubClient (List.replicate 11 pAlpha))
          (.jStr "alpha")).take (max (10 : Int) 1).toNat
  ∧ ((FastMcp.search_products (stubClient (List.replicate 11 pAlpha))
        "alpha" 10).length : Int) ≤ 10
  ∧ Mcp.search_products (stubClient [pAlpha, pBeta]) (.jStr "beta")
      = [searchDict pBeta] := by
  obtain ⟨h1, h2, h3⟩ := search_early_stop_amended
  refine ⟨h1 _ _ _, h2 _ "alpha" 10 (by decide), ?_⟩
  rw [h3 (stubClient [pAlpha, pBeta]) "beta" [pAlpha, pBeta] rfl]
  rfl

/-- Does a JSON body carry an explicit error payload? -/
def hasErrorKey (v : JValue) : Bool :=
  match v with
  | .jObj fields => (lookupField fields "error").isSome
  | _ => false

/-- C2 counterexample: when the Remote Data Client raises inside
`get_product_list`, the dispatch answers with status 200 and the success
envelope holding an empty result — not a Failed outcome of kind
UpstreamError, and with no error payload at all. -/
theorem upstream_error_gives_empty_success :
    Mcp.do_POST failClient "/mcp"
        (.parsed (.jObj [("method", .jStr "get_product_list")]))
      = ⟨200, .jObj [("result", .jArr [])]⟩
  ∧ (Mcp.do_POST failClient "/mcp"
        (.parsed (.jObj [("method", .jStr "get_product_list")]))).status = 200
  ∧ hasErrorKey (Mcp.do_POST failClient "/mcp"
        (.parsed (.jObj [("method", .jStr "get_product_list")]))).body
      = false := ⟨rfl, rfl, rfl⟩

/-- C2 (amended): every error raised by the Remote Data Client is caught
inside the handler itself and converted to an empty result ([] for lists,
the empty dict for single records); the dispatch then reports a plain 200
success envelope around the empty value, and the error is never
propagated as a process-level fault. -/
theorem upstream_errors_swallowed_to_empty :
    (∀ (c : ShopifyClient) (v : JValue) (e : String),
        c.findProducts v = .error e → Mcp.get_product_list c v = [])
  ∧ (∀ (c : ShopifyClient) (v : JValue) (e : String),
        c.findCustomers v = .error e → Mcp.get_customer_list c v = [])
  ∧ (∀ (c : ShopifyClient) (v : JValue) (e : String),
        c.findOrders v = .error e → Mcp.get_order_list c v = [])
  ∧ (∀ (c : ShopifyClient) (q : JValue) (e : String),
        c.findProducts (.jInt 50) = .error e → Mcp.search_products c q = [])
  ∧ (∀ (c : ShopifyClient) (e : String),
        c.shopCurrent () = .error e → Mcp.get_store_info c = [])
  ∧ (∀ (c : ShopifyClient) (e : String),
        c.findProducts (.jInt 10) = .error e →
        Mcp.do_POST c "/mcp"
            (.parsed (.jObj [("method", .jStr "get_product_list")]))
          = ⟨200, .jObj [("result", .jArr [])]⟩)
  ∧ (∀ (c : ShopifyClient) (limit : Int) (e : String),
        c.findProducts (.jInt limit) = .error e →
        FastMcp.get_products c limit = [])
  ∧ (∀ (c : ShopifyClient) (pid : String) (e : String),
        c.findProductById pid = .error e →
        FastMcp.get_product_details c pid = [])
  ∧ (∀ (c : ShopifyClient) (q : String) (limit : Int) (e : String),
        c.findProducts (.jInt 50) = .error e →
        FastMcp.search_products c q limit = []) := by
  refine ⟨?_, ?_, ?_, ?_, ?_, ?_, ?_, ?_, ?_⟩
  · intro c v e h; simp [Mcp.get_product_list, h]
  · intro c v e h; simp [Mcp.get_customer_list, h]
  · intro c v e h; simp [Mcp.get_order_list, h]
  · intro c q e h; simp [Mcp.search_products, h]
  · intro c e h; simp [Mcp.get_store_info, h]
  · intro c e h
    simp [Mcp.do_POST, Mcp.get_product_list, Mcp.pyGet, lookupField, h]
  · intro c limit e h; simp [FastMcp.get_products, h]
  · intro c pid e h; simp [FastMcp.get_product_details, h]
  · intro c q limit e h; simp [FastMcp.search_products, h]

/-- C2 witness: the always-failing client exercises every handler. -/
theorem upstream_errors_swallowed_to_empty_witness :
    Mcp.get_product_list failClient (.jInt 10) = []
  ∧ Mcp.get_customer_list failClient (.jInt 10) = []
  ∧ Mcp.get_order_list failClient (.jInt 10) = []
  ∧ Mcp.search_products failClient (.jStr "x") = []
  ∧ Mcp.get_store_info failClient = []
  ∧ Mcp.do_POST failClient "/mcp"
        (.parsed (.jObj [("method", .jStr "get_product_list")]))
      = ⟨200, .jObj [("result", .jArr [])]⟩
  ∧ FastMcp.get_products failClient 10 = []
  ∧ FastMcp.get_product_details failClient "1" = []
  ∧ FastMcp.search_products failClient "x" 10 = [] := by
  obtain ⟨h1, h2, h3, h4, h5, h6, h7, h8, h9⟩ :=
    upstream_errors_swallowed_to_empty
  exact ⟨h1 _ _ _ rfl, h2 _ _ _ rfl, h3 _ _ _ rfl, h4 _ _ _ rfl,
    h5 _ _ rfl, h6 _ _ rfl, h7 _ 10 _ rfl, h8 _ _ _ rfl, h9 _ _ 10 _ rfl⟩

/-- C3 counterexample: created_at is a data-model product field, emitted
by the list transform, but the search transform omits it entirely; the
search transform's variant dicts likewise omit inventory_quantity. -/
theorem search_dict_omits_created_at :
    "created_at" ∈ productFieldNames
  ∧ (productDict pAlpha).map Prod.fst = productFieldNames
  ∧ lookupField (searchDict pAlpha) "created_at" = none
  ∧ lookupField (searchDict pAlpha) "updated_at" = none
  ∧ "inventory_quantity" ∈ (variantDict vAlpha).map Prod.fst
  ∧ lookupField (searchVariantDict vAlpha) "inventory_quantity" = none := by
  exact ⟨by decide, rfl, rfl, rfl, by decide, rfl⟩

/-- C3 (amended): for the list/detail transforms every data-model field
is present in output order, with an empty sequence or empty mapping
standing in for a nested collection the remote record omits — in
particular zero variants and zero images yield variants: [] and
images: [].  The search transform always carries variants and images keys
(the plural images key always holding []), but omits created_at and
updated_at, its variant dicts omit inventory_quantity, and it appends a
singular image key only when the product has at least one image. -/
theorem transforms_fields_present :
    (∀ p : Product, (productDict p).map Prod.fst = productFieldNames)
  ∧ (∀ p : Product, p.variants = [] →
        lookupField (productDict p) "variants" = some (.jArr []))
  ∧ (∀ p : Product, p.images = [] →
        lookupField (productDict p) "images" = some (.jArr []))
  ∧ (∀ c : Customer, (customerDict c).map Prod.fst = customerFieldNames)
  ∧ (∀ c : Customer, c.addresses = none →
        lookupField (customerDict c) "addresses" = some (.jArr []))
  ∧ (∀ o : Order, (orderDict o).map Prod.fst = orderFieldNames)
  ∧ (∀ o : Order, o.customer = none →
        lookupField (orderDict o) "customer" = some (.jObj []))
  ∧ (∀ o : Order, o.shipping_address = none →
        lookupField (orderDict o) "shipping_address" = some (.jObj []))
  ∧ (∀ s : Shop, (shopDict s).map Prod.fst = shopFieldNames)
  ∧ (∀ p : Product, (searchDict p).map Prod.fst
        = searchFieldNames ++ (match p.images with
            | [] => []
            | _ :: _ => ["image"]))
  ∧ (∀ p : Product, p.variants = [] →
        lookupField (searchDict p) "variants" = some (.jArr []))
  ∧ (∀ p : Product, lookupField (searchDict p) "images" = some (.jArr []))
  ∧ (∀ p : Product, lookupField (searchDict p) "created_at" = none
        ∧ lookupField (searchDict p) "updated_at" = none)
  ∧ (∀ v : Variant, (searchVariantDict v).map Prod.fst
        = ["id", "title", "price", "sku"]) := by
  refine ⟨fun p => rfl, ?_, ?_, fun c => rfl, ?_, fun o => rfl, ?_, ?_,
    fun s => rfl, ?_, ?_, ?_, ?_, fun v => rfl⟩
  · intro p h; simp [productDict, lookupField, h]
  · intro p h; simp [productDict, lookupField, h]
  · intro c h; simp [customerDict, lookupField, h]
  · intro o h; simp [orderDict, lookupField, h]
  · intro o h; simp [orderDict, lookupField, h]
  · intro p
    cases h : p.images <;> simp [searchDict, h, searchFieldNames]
  · intro p h; simp [searchDict, lookupField, h]
  · intro p
    cases h : p.images <;> simp [searchDict, lookupField, h]
  · intro p
    cases h : p.images <;> simp [searchDict, lookupField, h]

/-- C4 counterexample: the tool surface registers get_product_details but
the HTTP POST registry does not; the very request the tool surface
answers with a product dict is rejected by the HTTP transport as an
unknown method, so the two transports do not expose the same operations
with identical behavior. -/
theorem structured_tool_missing_on_http :
    ("get_product_details" ∈ FastMcp.tools
      ∧ "get_product_details" ∉ Mcp.postMethods)
  ∧ Mcp.do_POST cDemo "/mcp"
        (.parsed (.jObj [("method", .jStr "get_product_details"),
          ("params", .jObj [("product_id", .jStr "1")])]))
      = ⟨400, .jObj [("error", .jStr "Unknown method: get_product_details")]⟩
  ∧ FastMcp.get_product_details cDemo "1" = productDict pAlpha
  ∧ productDict pAlpha ≠ [] := by
  refine ⟨⟨by decide, by decide⟩, rfl, rfl, ?_⟩
  intro h
  simp [productDict] at h

/-- C4 (amended): the HTTP POST surface registers five methods and the
tool surface seven, under different names; only search_products and
get_store_info appear on both, and even the shared search_products
diverges between the transports because the tool surface truncates its
result at the limit while the HTTP surface does not. -/
theorem method_tables_differ :
    Mcp.postMethods.length = 5
  ∧ FastMcp.tools.length = 7
  ∧ Mcp.postMethods.filter (fun m => FastMcp.tools.contains m)
      = ["search_products", "get_store_info"]
  ∧ (FastMcp.search_products (stubClient (List.replicate 11 pAlpha))
      "alpha" 10).length = 10
  ∧ (Mcp.search_products (stubClient (List.replicate 11 pAlpha))
      (.jStr "alpha")).length = 11 := ⟨rfl, rfl, rfl, rfl, rfl⟩

/-- C6: a request naming a method outside the registry gets a 400 error
from the POST transport and a 404 error from the GET transport, and in
both cases the response is independent of the Remote Data Client — no
upstream call can influence it. -/
theorem unknown_method_no_upstream_call :
    (∀ (c : ShopifyClient) (m : String) (params : JValue),
        m ∉ Mcp.postMethods →
        Mcp.do_POST c "/mcp"
            (.parsed (.jObj [("method", .jStr m), ("params", params)]))
          = ⟨400, .jObj [("error", .jStr ("Unknown method: " ++ m))]⟩)
  ∧ (∀ (c₁ c₂ : ShopifyClient) (m : String) (params : JValue),
        m ∉ Mcp.postMethods →
        Mcp.do_POST c₁ "/mcp"
            (.parsed (.jObj [("method", .jStr m), ("params", params)]))
          = Mcp.do_POST c₂ "/mcp"
            (.parsed (.jObj [("method", .jStr m), ("params", params)])))
  ∧ (∀ (c : ShopifyClient) (path : String) (qp : List (String × String)),
        path ≠ "/health" → pyStartsWith path "/api/" = true →
        pyReplace path "/api/" "" ∉ Mcp.getEndpoints →
        Mcp.do_GET c path qp
          = .ok ⟨404, .jObj [("error", .jStr "Endpoint not found")]⟩)
  ∧ (∀ (c₁ c₂ : ShopifyClient) (path : String)
        (qp : List (String × String)),
        path ≠ "/health" → pyStartsWith path "/api/" = true →
        pyReplace path "/api/" "" ∉ Mcp.getEndpoints →
        Mcp.do_GET c₁ path qp = Mcp.do_GET c₂ path qp) := by
  have hpost : ∀ (c : ShopifyClient) (m : String) (params : JValue),
      m ∉ Mcp.postMethods →
      Mcp.do_POST c "/mcp"
          (.parsed (.jObj [("method", .jStr m), ("params", params)]))
        = ⟨400, .jObj [("error", .jStr ("Unknown method: " ++ m))]⟩ := by
    intro c m params hm
    simp [Mcp.postMethods] at hm
    push_neg at hm
    obtain ⟨h1, h2, h3, h4, h5⟩ := hm
    simp [Mcp.do_POST, lookupField, h1, h2, h3, h4, h5]
  have hget : ∀ (c : ShopifyClient) (path : String)
      (qp : List (String × String)),
      path ≠ "/health" → pyStartsWith path "/api/" = true →
      pyReplace path "/api/" "" ∉ Mcp.getEndpoints →
      Mcp.do_GET c path qp
        = .ok ⟨404, .jObj [("error", .jStr "Endpoint not found")]⟩ := by
    intro c path qp hp1 hp2 hp3
    simp [Mcp.getEndpoints] at hp3
    push_neg at hp3
    obtain ⟨g1, g2, g3, g4, g5⟩ := hp3
    simp [Mcp.do_GET, hp1, hp2, g1, g2, g3, g4, g5]
  refine ⟨hpost, ?_, hget, ?_⟩
  · intro c₁ c₂ m params hm
    rw [hpost c₁ m params hm, hpost c₂ m params hm]
  · intro c₁ c₂ path qp hp1 hp2 hp3
    rw [hget c₁ path qp hp1 hp2 hp3, hget c₂ path qp hp1 hp2 hp3]

/-- C6 witness: the unregistered method frobnicate and the unregistered
endpoint bogus, evaluated against two different clients. -/
theorem unknown_method_no_upstream_call_witness :
    ("frobnicate" ∉ Mcp.postMethods)
  ∧ Mcp.do_POST failClient "/mcp"
        (.parsed (.jObj [("method", .jStr "frobnicate"),
          ("params", .jObj [])]))
      = ⟨400, .jObj [("error", .jStr "Unknown method: frobnicate")]⟩
  ∧ Mcp.do_POST failClient "/mcp"
        (.parsed (.jObj [("method", .jStr "frobnicate"),
          ("params", .jObj [])]))
      = Mcp.do_POST (stubClient []) "/mcp"
        (.parsed (.jObj [("method", .jStr "frobnicate"),
          ("params", .jObj [])]))
  ∧ Mcp.do_GET failClient "/api/bogus" []
      = .ok ⟨404, .jObj [("error", .jStr "Endpoint not found")]⟩ := by
  obtain ⟨h1, h2, h3, h4⟩ := unknown_method_no_upstream_call
  exact ⟨by decide, h1 failClient "frobnicate" (.jObj []) (by decide),
    h2 failClient (stubClient []) "frobnicate" (.jObj []) (by decide),
    h3 failClient "/api/bogus" [] (by decide) rfl (by decide)⟩

/-- C7: the query-string router performs no parameter validation — a
non-integer limit raises ValueError out of do_GET, so no
InvalidParameters response (indeed no response at all) is written for
that request, while a well-formed limit reaches the handler normally. -/
theorem invalid_limit_raises_valueerror :
    Mcp.do_GET (stubClient [pAlpha]) "/api/products" [("limit", "abc")]
      = .error "ValueError"
  ∧ pyInt? "abc" = none
  ∧ Mcp.do_GET (stubClient [pAlpha]) "/api/products" [("limit", "3")]
      = .ok ⟨200, .jArr [.jObj (productDict pAlpha)]⟩ := ⟨rfl, rfl, rfl⟩

/-- C8: the list operation transforms the client's sequence element-wise
in order on both surfaces; with a client serving the first three of a
five-product fixture, exactly three products come back in fixture order;
and each output dict draws its variants and images only from the fields
of the product it transforms. -/
theorem product_list_elementwise_order :
    (∀ (c : ShopifyClient) (v : JValue) (ps : List Product),
        c.findProducts v = .ok ps →
        Mcp.get_product_list c v = ps.map productDict)
  ∧ (∀ (c : ShopifyClient) (limit : Int) (ps : List Product),
        c.findProducts (.jInt limit) = .ok ps →
        FastMcp.get_products c limit = ps.map productDict)
  ∧ (∀ (c : ShopifyClient) (fixture : List Product),
        fixture.length = 5 →
        c.findProducts (.jInt 3) = .ok (fixture.take 3) →
        (Mcp.get_product_list c (.jInt 3)).length = 3
          ∧ Mcp.get_product_list c (.jInt 3)
              = (fixture.take 3).map productDict)
  ∧ (∀ p : Product,
        lookupField (productDict p) "variants"
          = some (.jArr (p.variants.map (fun v => .jObj (variantDict v))))
        ∧ lookupField (productDict p) "images"
          = some (.jArr (p.images.map (fun i => .jObj (imageDict i))))) := by
  refine ⟨?_, ?_, ?_, fun p => ⟨rfl, rfl⟩⟩
  · intro c v ps h; simp [Mcp.get_product_list, h]
  · intro c limit ps h; simp [FastMcp.get_products, h]
  · intro c fixture hlen h
    constructor
    · simp [Mcp.get_product_list, h]
      omega
    · simp [Mcp.get_product_list, h]

/-- C8 witness: the five-product fixture, served three at a time. -/
theorem product_list_elementwise_order_witness :
    (Mcp.get_product_list (stubClient (fixture5.take 3)) (.jInt 3)).length = 3
  ∧ Mcp.get_product_list (stubClient (fixture5.take 3)) (.jInt 3)
      = (fixture5.take 3).map productDict
  ∧ FastMcp.get_products (stubClient fixture5) 10 = fixture5.map productDict
  ∧ lookupField (productDict pBeta) "variants"
      = some (.jArr (pBeta.variants.map (fun v => .jObj (variantDict v)))) := by
  obtain ⟨h1, h2, h3, h4⟩ := product_list_elementwise_order
  have hfix := h3 (stubClient (fixture5.take 3)) fixture5 rfl rfl
  exact ⟨hfix.1, hfix.2, h2 _ 10 _ rfl, (h4 pBeta).1⟩

/-- C9: a matched product with images contributes only its first image,
under the singular image key holding just the source URL; the plural
images key of the search dict always holds the empty list, while the
full-list transform carries every image under the plural key. -/
theorem search_single_image_field :
    (∀ (p : Product) (img : Image) (rest : List Image),
        p.images = img :: rest →
        lookupField (searchDict p) "image"
          = some (.jObj [("src", .jStr img.src)]))
  ∧ (∀ p : Product, p.images = [] →
        lookupField (searchDict p) "image" = none)
  ∧ (∀ p : Product, lookupField (searchDict p) "images" = some (.jArr []))
  ∧ (∀ p : Product, lookupField (productDict p) "images"
        = some (.jArr (p.images.map (fun i => .jObj (imageDict i))))) := by
  refine ⟨?_, ?_, ?_, fun p => rfl⟩
  · intro p img rest h; simp [searchDict, lookupField, h]
  · intro p h; simp [searchDict, lookupField, h]
  · intro p; cases h : p.images <;> simp [searchDict, lookupField, h]

/-- C9 witness: pBeta has two images; search keeps only the first, list
keeps both. -/
theorem search_single_image_field_witness :
    lookupField (searchDict pBeta) "image"
      = some (.jObj [("src", .jStr "https://img.example/beta-1.png")])
  ∧ lookupField (searchDict pAlpha) "image" = none
  ∧ lookupField (searchDict pBeta) "images" = some (.jArr [])
  ∧ lookupField (productDict pBeta) "images"
      = some (.jArr (pBeta.images.map (fun i => .jObj (imageDict i)))) := by
  obtain ⟨h1, h2, h3, h4⟩ := search_single_image_field
  exact ⟨h1 pBeta ⟨201, "https://img.example/beta-1.png", 1⟩
      [⟨202, "https://img.example/beta-2.png", 2⟩] rfl,
    h2 pAlpha rfl, h3 pBeta, h4 pBeta⟩

/-- C10: a GET search request with no q parameter defaults the query to
the empty string, the empty query matches every product, and the response
is the whole working set transformed in order. -/
theorem get_search_empty_query_returns_all :
    (∀ (c : ShopifyClient) (qp : List (String × String))
        (ws : List Product),
        List.lookup "q" qp = none →
        c.findProducts (.jInt 50) = .ok ws →
        Mcp.do_GET c "/api/search" qp
          = .ok ⟨200, .jArr ((ws.map searchDict).map JValue.jObj)⟩)
  ∧ (∀ p : Product, matchesQuery (pyLower "") p = true) := by
  refine ⟨?_, matchesQuery_empty⟩
  intro c qp ws hq hf
  have hfil : ws.filter (fun p => matchesQuery (pyLower "") p) = ws :=
    List.filter_eq_self.mpr (fun p hp => matchesQuery_empty p)
  have h1 : Mcp.search_products c (.jStr "") = ws.map searchDict := by
    simp [Mcp.search_products, hf, searchLoop_eq_filter, hfil]
  rw [do_GET_search_route, hq]
  simp [h1]

/-- C10 witness: two products, no q parameter, both returned. -/
theorem get_search_empty_query_returns_all_witness :
    List.lookup "q" ([] : List (String × String)) = none
  ∧ Mcp.do_GET (stubClient [pAlpha, pBeta]) "/api/search" []
      = .ok ⟨200, .jArr (([pAlpha, pBeta].map searchDict).map JValue.jObj)⟩
  ∧ matchesQuery (pyLower "") pAlpha = true := by
  obtain ⟨h1, h2⟩ := get_search_empty_query_returns_all
  exact ⟨rfl, h1 (stubClient [pAlpha, pBeta]) [] [pAlpha, pBeta] rfl rfl,
    h2 pAlpha⟩

/-- C3 witness: concrete records with omitted nested collections. -/
theorem transforms_fields_present_witness :
    (productDict pAlpha).map Prod.fst = productFieldNames
  ∧ lookupField (productDict pAlpha) "variants" = some (.jArr [])
  ∧ lookupField (productDict pAlpha) "images" = some (.jArr [])
  ∧ (customerDict custNoAddr).map Prod.fst = customerFieldNames
  ∧ lookupField (customerDict custNoAddr) "addresses" = some (.jArr [])
  ∧ (orderDict orderBare).map Prod.fst = orderFieldNames
  ∧ lookupField (orderDict orderBare) "customer" = some (.jObj [])
  ∧ lookupField (orderDict orderBare) "shipping_address" = some (.jObj [])
  ∧ (searchDict pAlpha).map Prod.fst = searchFieldNames
  ∧ lookupField (searchDict pAlpha) "variants" = some (.jArr [])
  ∧ lookupField (searchDict pAlpha) "images" = some (.jArr [])
  ∧ lookupField (searchDict pAlpha) "created_at" = none
  ∧ (searchVariantDict vAlpha).map Prod.fst = ["id", "title", "price", "sku"] := by
  obtain ⟨t1, t2, t3, t4, t5, t6, t7, t8, t9, t10, t11, t12, t13, t14⟩ :=
    transforms_fields_present
  refine ⟨t1 pAlpha, t2 pAlpha rfl, t3 pAlpha rfl, t4 custNoAddr,
    t5 custNoAddr rfl, t6 orderBare, t7 orderBare rfl, t8 orderBare rfl,
    ?_, t11 pAlpha rfl, t12 pAlpha, (t13 pAlpha).1, t14 vAlpha⟩
  have := t10 pAlpha
  simpa using this
